import Mathlib

/-!
Verification of the MRC authentication core (backend/app/models.py and
backend/app/auth/routes.py) against its natural-language specification.

Modelling conventions:
* Timestamps are natural numbers counted in minutes (`timedelta(minutes=m)`
  becomes `+ m`, `timedelta(hours=1)` becomes `+ 60`); `datetime.now()` is an
  explicit `now` argument threaded through each operation.
* bcrypt is modelled functionally: a hash is a pair of the plaintext it was
  derived from and the salt used, `bcrypt.checkpw` is comparison against the
  stored plaintext (the contract of a collision-free salted hash).
* `secrets.token_urlsafe(64)` is modelled as an explicit token argument.
* Methods that mutate `self` become functions `User -> User` (or return a
  pair when the Python method also returns a value); `db.session.commit` and
  logging calls have no model-visible effect.
* Python truthiness matters in one place: `if not self.password_reset_token`
  is true both for `None` and for the empty string, and is modelled that way.
-/

namespace MRC

/-- Functional model of a bcrypt hash: the plaintext it hashes and the salt. -/
structure BcryptHash where
  pw : String
  salt : Nat
deriving DecidableEq, Repr

/-- Model of `bcrypt.hashpw(password, salt)`. -/
def bcrypt_hashpw (password : String) (salt : Nat) : BcryptHash :=
  ⟨password, salt⟩

/-- Model of `bcrypt.checkpw(password, hash)`. -/
def bcrypt_checkpw (password : String) (h : BcryptHash) : Bool :=
  password == h.pw

/-- The `User` model of `backend/app/models.py` (the fields the core mutates). -/
structure User where
  password_hash : BcryptHash
  is_active : Bool
  last_login : Option Nat
  password_reset_token : Option String
  password_reset_expires : Option Nat
  failed_login_attempts : Nat
  locked_until : Option Nat
  last_failed_login : Option Nat
deriving DecidableEq, Repr

/-- `User.set_password`: hash the password with a fresh salt and store it. -/
def User.set_password (u : User) (password : String) (salt : Nat) : User :=
  { u with password_hash := bcrypt_hashpw password salt }

/-- `User.check_password`: check a password against the stored bcrypt hash. -/
def User.check_password (u : User) (password : String) : Bool :=
  bcrypt_checkpw password u.password_hash

/-- `User.update_last_login`: set the last-login timestamp to now. -/
def User.update_last_login (u : User) (now : Nat) : User :=
  { u with last_login := some now }

/-- `User.generate_password_reset_token`: store a fresh token and a
one-hour expiry, overwriting whatever was there. -/
def User.generate_password_reset_token (u : User) (tok : String) (now : Nat) :
    User :=
  { u with password_reset_token := some tok,
           password_reset_expires := some (now + 60) }

/-- `User.clear_password_reset_token`: null out both reset fields. -/
def User.clear_password_reset_token (u : User) : User :=
  { u with password_reset_token := none, password_reset_expires := none }

/-- `User.verify_password_reset_token`: returns the boolean result together
with the (possibly mutated) user.  Mirrors the Python truthiness check
`if not self.password_reset_token or not self.password_reset_expires`
(an empty stored token is falsy), the strict `now > expires` comparison,
and `secrets.compare_digest` as string equality. -/
def User.verify_password_reset_token (u : User) (token : String) (now : Nat) :
    Bool × User :=
  match u.password_reset_token, u.password_reset_expires with
  | some stored, some expires =>
      if stored == "" then (false, u)
      else if expires < now then (false, u.clear_password_reset_token)
      else (stored == token, u)
  | _, _ => (false, u)

/-- `User.reset_password`: re-hash the password, clear the reset fields,
zero the failure counter and lift any lock. -/
def User.reset_password (u : User) (new_password : String) (salt : Nat) :
    User :=
  { (u.set_password new_password salt).clear_password_reset_token with
      failed_login_attempts := 0, locked_until := none }

/-- `User.is_account_locked`: locked iff `locked_until` is set and still in
the future. -/
def User.is_account_locked (u : User) (now : Nat) : Bool :=
  match u.locked_until with
  | none => false
  | some t => decide (now < t)

/-- The progressive lockout schedule of `handle_failed_login`:
`min(5 * 2 ** (attempts - 3), 240)` minutes. -/
def lockout_minutes (attempts : Nat) : Nat :=
  min (5 * 2 ^ (attempts - 3)) 240

/-- `User.handle_failed_login`: bump the counter, stamp the failure time,
and lock the account when the new count reaches 3. -/
def User.handle_failed_login (u : User) (now : Nat) : User :=
  let u1 : User :=
    { u with failed_login_attempts := u.failed_login_attempts + 1,
             last_failed_login := some now }
  if 3 ≤ u1.failed_login_attempts then
    { u1 with locked_until := some (now + lockout_minutes u1.failed_login_attempts) }
  else
    u1

/-- `User.handle_successful_login`: reset the counters and stamp the login. -/
def User.handle_successful_login (u : User) (now : Nat) : User :=
  { u with failed_login_attempts := 0, locked_until := none,
           last_failed_login := none, last_login := some now }

/-- `User.unlock_account`: administrative reset of the lockout state. -/
def User.unlock_account (u : User) : User :=
  { u with failed_login_attempts := 0, locked_until := none,
           last_failed_login := none }

/-- The observable part of an HTTP response from the auth routes: status
code, error message (if any), and whether an access token was issued. -/
structure ApiResponse where
  status : Nat
  error : Option String
  token_issued : Bool
deriving DecidableEq, Repr

/-- The `/auth/login` route of `backend/app/auth/routes.py`, from the point
where the repository lookup has produced `found` (the user, if any).
Returns the observable response and the post-request user state. -/
def login (found : Option User) (password : String) (now : Nat) :
    ApiResponse × Option User :=
  match found with
  | none => (⟨401, some "Invalid credentials", false⟩, none)
  | some user =>
      if user.is_account_locked now then
        (⟨401, some "Account temporarily locked due to failed login attempts",
            false⟩, some user)
      else if ! user.check_password password then
        (⟨401, some "Invalid credentials", false⟩,
          some (user.handle_failed_login now))
      else if ! user.is_active then
        (⟨401, some "Account is deactivated", false⟩, some user)
      else
        (⟨200, none, true⟩, some (user.handle_successful_login now))

/-- The `/auth/refresh` route, from the point where the refresh token has
been validated and the repository lookup has produced `found`. -/
def refresh (found : Option User) : ApiResponse :=
  match found with
  | none => ⟨404, some "User not found or inactive", false⟩
  | some user =>
      if ! user.is_active then ⟨404, some "User not found or inactive", false⟩
      else ⟨200, none, true⟩

/-! ## Basic projection lemmas -/

lemma handle_failed_login_attempts (u : User) (now : Nat) :
    (u.handle_failed_login now).failed_login_attempts
      = u.failed_login_attempts + 1 := by
  unfold User.handle_failed_login
  dsimp only
  split <;> rfl

lemma handle_failed_login_locked (u : User) (now : Nat)
    (h : 3 ≤ u.failed_login_attempts + 1) :
    (u.handle_failed_login now).locked_until
      = some (now + lockout_minutes (u.failed_login_attempts + 1)) := by
  unfold User.handle_failed_login
  dsimp only
  rw [if_pos h]

/-- C1 -- Progressive lockout schedule: a failure that raises the count to
`n ≥ 3` sets `locked_until` to `now + min(5 * 2 ^ (n - 3), 240)` minutes;
the durations for `n = 3..8` are 5, 10, 20, 40, 80, 160 minutes, every
`n ≥ 9` gives exactly 240 minutes, and the duration is non-decreasing in
`n` and capped at 240. -/
theorem lockout_schedule_correct (u : User) (now n : Nat)
    (hn : (u.handle_failed_login now).failed_login_attempts = n)
    (h3 : 3 ≤ n) :
    (u.handle_failed_login now).locked_until
        = some (now + lockout_minutes n)
    ∧ lockout_minutes 3 = 5 ∧ lockout_minutes 4 = 10
    ∧ lockout_minutes 5 = 20 ∧ lockout_minutes 6 = 40
    ∧ lockout_minutes 7 = 80 ∧ lockout_minutes 8 = 160
    ∧ (∀ m, 9 ≤ m → lockout_minutes m = 240)
    ∧ (∀ a b, a ≤ b → lockout_minutes a ≤ lockout_minutes b)
    ∧ (∀ m, lockout_minutes m ≤ 240) := by
  rw [handle_failed_login_attempts] at hn
  refine ⟨?_, by decide, by decide, by decide, by decide, by decide, by decide,
    ?_, ?_, ?_⟩
  · rw [handle_failed_login_locked u now (by omega), hn]
  · intro m hm
    have h64 : (64 : Nat) ≤ 2 ^ (m - 3) := by
      calc (64 : Nat) = 2 ^ 6 := by norm_num
        _ ≤ 2 ^ (m - 3) := Nat.pow_le_pow_right (by norm_num) (by omega)
    have h320 : 5 * 64 ≤ 5 * 2 ^ (m - 3) := Nat.mul_le_mul le_rfl h64
    unfold lockout_minutes
    omega
  · intro a b hab
    have hpow : 2 ^ (a - 3) ≤ 2 ^ (b - 3) :=
      Nat.pow_le_pow_right (by norm_num) (by omega)
    have hmul : 5 * 2 ^ (a - 3) ≤ 5 * 2 ^ (b - 3) := Nat.mul_le_mul le_rfl hpow
    unfold lockout_minutes
    omega
  · intro m
    unfold lockout_minutes
    omega

/-- A sample account used by the concrete witnesses below. -/
def sampleUser : User :=
  { password_hash := bcrypt_hashpw "Secret123!" 7, is_active := true,
    last_login := none, password_reset_token := none,
    password_reset_expires := none, failed_login_attempts := 0,
    locked_until := none, last_failed_login := none }

/-- Witness for C1: the third failure (count 2 → 3) at time 100 locks the
account until 100 + 5. -/
theorem lockout_schedule_correct_witness :
    ({ sampleUser with failed_login_attempts := 2 }.handle_failed_login
        100).locked_until = some (100 + lockout_minutes 3) :=
  (lockout_schedule_correct { sampleUser with failed_login_attempts := 2 }
    100 3 (by decide) (by decide)).1

/-- C2 -- A locked account rejects even the correct password: while
`locked_until` is set and strictly in the future, login returns the
account-locked error with status 401 and issues no token. -/
theorem locked_account_rejects_correct_password (u : User) (pw : String)
    (now t : Nat) (hlock : u.locked_until = some t) (hfut : now < t)
    (_hpw : u.check_password pw = true) :
    (login (some u) pw now).1
      = ⟨401, some "Account temporarily locked due to failed login attempts",
          false⟩ := by
  have hlocked : u.is_account_locked now = true := by
    unfold User.is_account_locked
    rw [hlock]
    simpa using hfut
  simp [login, hlocked]

/-- Witness for C2: the sample user locked until time 100, probed at time 50
with its correct password, is turned away without a token. -/
theorem locked_account_rejects_correct_password_witness :
    (login (some { sampleUser with locked_until := some 100 }) "Secret123!"
        50).1
      = ⟨401, some "Account temporarily locked due to failed login attempts",
          false⟩ :=
  locked_account_rejects_correct_password
    { sampleUser with locked_until := some 100 } "Secret123!" 50 100
    (by decide) (by decide) (by decide)

/-- C5 -- Refresh availability: with a structurally valid, unexpired refresh
token (modelled by reaching the handler body), a missing or inactive account
yields the account-unavailable error and no token, and an existing active
account yields a fresh access token. -/
theorem refresh_account_availability (found : Option User) :
    (found = none →
      refresh found = ⟨404, some "User not found or inactive", false⟩)
    ∧ (∀ u, found = some u → u.is_active = false →
        refresh found = ⟨404, some "User not found or inactive", false⟩)
    ∧ (∀ u, found = some u → u.is_active = true →
        refresh found = ⟨200, none, true⟩) := by
  refine ⟨?_, ?_, ?_⟩
  · intro h
    rw [h]
    rfl
  · intro u h hact
    rw [h]
    simp [refresh, hact]
  · intro u h hact
    rw [h]
    simp [refresh, hact]

/-- Witness for C5: refresh against the sample user deactivated fails with
the account-unavailable error. -/
theorem refresh_account_availability_witness :
    refresh (some { sampleUser with is_active := false })
      = ⟨404, some "User not found or inactive", false⟩ :=
  (refresh_account_availability
      (some { sampleUser with is_active := false })).2.1
    { sampleUser with is_active := false } rfl rfl

/-- C7 -- Enumeration resistance: the observable login response for an
unknown identifier equals the observable response for a known, unlocked,
active account with a wrong password (same 401 status, same
"Invalid credentials" message, no token in either case). -/
theorem login_enumeration_resistance (u : User) (pwUnknown pwWrong : String)
    (now : Nat) (hunlocked : u.is_account_locked now = false)
    (_hactive : u.is_active = true)
    (hwrong : u.check_password pwWrong = false) :
    (login none pwUnknown now).1 = (login (some u) pwWrong now).1 := by
  simp [login, hunlocked, hwrong]

/-- Witness for C7: the response for a missing user equals the response for
the sample user probed with a wrong password. -/
theorem login_enumeration_resistance_witness :
    (login none "whatever" 5).1 = (login (some sampleUser) "wrong" 5).1 :=
  login_enumeration_resistance sampleUser "whatever" "wrong" 5 (by decide)
    (by decide) (by decide)

/-- C10 -- Frame property of the lock window: when the account is locked at
request time, login (with any password, right or wrong) returns the user
completely unchanged — in particular `failed_login_attempts`,
`locked_until`, `password_hash` and `last_login` keep their values, the
failure is not counted, and the lock is not extended. -/
theorem locked_login_frame (u : User) (pw : String) (now : Nat)
    (hlock : u.is_account_locked now = true) :
    (login (some u) pw now).2 = some u
    ∧ ((login (some u) pw now).2.map User.failed_login_attempts
        = some u.failed_login_attempts)
    ∧ ((login (some u) pw now).2.map User.locked_until = some u.locked_until)
    ∧ ((login (some u) pw now).2.map User.password_hash
        = some u.password_hash)
    ∧ ((login (some u) pw now).2.map User.last_login = some u.last_login) := by
  have h2 : (login (some u) pw now).2 = some u := by
    simp [login, hlock]
  refine ⟨h2, ?_, ?_, ?_, ?_⟩ <;> rw [h2] <;> rfl

/-- The sample account three failures deep and locked until time 100. -/
def lockedSample : User :=
  { sampleUser with locked_until := some 100, failed_login_attempts := 3 }

/-- Witness for C10: a wrong-password attempt against the locked sample user
leaves the stored state untouched. -/
theorem locked_login_frame_witness :
    (login (some lockedSample) "wrong" 50).2 = some lockedSample :=
  (locked_login_frame lockedSample "wrong" 50 (by decide)).1

/-- C3 -- Reset-token verification: with no stored token the check returns
false and changes nothing; with a stored (non-empty) token whose expiry has
passed, it clears both reset fields and returns false; otherwise it returns
whether the candidate equals the stored token and leaves the user unchanged.
(The non-emptiness hypothesis reflects Python truthiness: issued tokens are
86-character `token_urlsafe` strings and are never empty.) -/
theorem verify_reset_token_cases (u : User) (cand : String) (now : Nat) :
    (u.password_reset_token = none →
      u.verify_password_reset_token cand now = (false, u))
    ∧ (∀ stored expires, u.password_reset_token = some stored → stored ≠ "" →
        u.password_reset_expires = some expires →
        (expires < now →
          u.verify_password_reset_token cand now
              = (false, u.clear_password_reset_token)
          ∧ u.clear_password_reset_token.password_reset_token = none
          ∧ u.clear_password_reset_token.password_reset_expires = none)
        ∧ (now ≤ expires →
          u.verify_password_reset_token cand now = (stored == cand, u))) := by
  constructor
  · intro h
    unfold User.verify_password_reset_token
    rcases u.password_reset_expires with _ | expires <;> rw [h]
  · intro stored expires hs hne he
    constructor
    · intro hexp
      refine ⟨?_, rfl, rfl⟩
      unfold User.verify_password_reset_token
      rw [hs, he]
      simp [hne, hexp]
    · intro hle
      unfold User.verify_password_reset_token
      rw [hs, he]
      simp [hne, show ¬ expires < now by omega]

/-- The sample account carrying a stored reset token that expires at 100. -/
def tokenSample : User :=
  { sampleUser with password_reset_token := some "tok1",
                    password_reset_expires := some 100 }

/-- Witness for C3: verifying the stored token at time 200 (past the expiry
100) returns false and clears the fields. -/
theorem verify_reset_token_cases_witness :
    tokenSample.verify_password_reset_token "tok1" 200
      = (false, tokenSample.clear_password_reset_token) :=
  (((verify_reset_token_cases tokenSample "tok1" 200).2 "tok1" 100
    (by decide) (by decide) (by decide)).1 (by decide)).1

/-- C4 -- Consuming a reset (running `reset_password` after a successful
verify): afterwards both reset fields are null, the failure counter is 0 and
any lock is lifted, the password hash is the hash of the new plaintext (so
the new password checks), and any further verify — in particular with the
same token — returns false. -/
theorem reset_password_postconditions (u : User) (tok newpw : String)
    (salt now : Nat)
    (_hver : (u.verify_password_reset_token tok now).1 = true) :
    ((u.verify_password_reset_token tok now).2.reset_password newpw
        salt).password_reset_token = none
    ∧ ((u.verify_password_reset_token tok now).2.reset_password newpw
        salt).password_reset_expires = none
    ∧ ((u.verify_password_reset_token tok now).2.reset_password newpw
        salt).failed_login_attempts = 0
    ∧ ((u.verify_password_reset_token tok now).2.reset_password newpw
        salt).locked_until = none
    ∧ ((u.verify_password_reset_token tok now).2.reset_password newpw
        salt).password_hash = bcrypt_hashpw newpw salt
    ∧ ((u.verify_password_reset_token tok now).2.reset_password newpw
        salt).check_password newpw = true
    ∧ (∀ cand now2,
        (((u.verify_password_reset_token tok now).2.reset_password newpw
          salt).verify_password_reset_token cand now2).1 = false) := by
  refine ⟨rfl, rfl, rfl, rfl, rfl, ?_, fun cand now2 => rfl⟩
  simp [User.check_password, bcrypt_checkpw, User.reset_password,
    User.set_password, User.clear_password_reset_token, bcrypt_hashpw]

/-- Witness for C4: consuming a live token on the sample account nulls the
stored token. -/
theorem reset_password_postconditions_witness :
    ((tokenSample.verify_password_reset_token "tok1" 50).2.reset_password
        "NewSecret1!" 9).password_reset_token = none :=
  (reset_password_postconditions tokenSample "tok1" "NewSecret1!" 9 50
    (by decide)).1

/-- C6 -- Re-issuing overwrites: issuing token `t2` over a live token `t1`
stores `t2`; afterwards a verify with `t1` returns false at any time, while
a verify with `t2` before the new expiry returns true. -/
theorem reissue_invalidates_old_token (u : User) (t1 t2 : String)
    (now1 now2 now3 now4 : Nat) (hne : t1 ≠ t2) (ht2 : t2 ≠ "")
    (h4 : now4 ≤ now2 + 60) :
    ((u.generate_password_reset_token t1 now1).generate_password_reset_token
        t2 now2).password_reset_token = some t2
    ∧ (((u.generate_password_reset_token t1
          now1).generate_password_reset_token t2
          now2).verify_password_reset_token t1 now3).1 = false
    ∧ (((u.generate_password_reset_token t1
          now1).generate_password_reset_token t2
          now2).verify_password_reset_token t2 now4).1 = true := by
  refine ⟨rfl, ?_, ?_⟩
  · unfold User.verify_password_reset_token
    dsimp only [User.generate_password_reset_token]
    simp only [beq_iff_eq, ht2, if_false]
    split_ifs with h
    · rfl
    · simp [Ne.symm hne]
  · unfold User.verify_password_reset_token
    dsimp only [User.generate_password_reset_token]
    simp [ht2, show ¬ now2 + 60 < now4 by omega]

/-- Witness for C6: issuing "second" over "first" at time 10 makes "first"
unverifiable at time 20 (well inside the original window). -/
theorem reissue_invalidates_old_token_witness :
    (((sampleUser.generate_password_reset_token "first"
          0).generate_password_reset_token "second"
          10).verify_password_reset_token "first" 20).1 = false :=
  (reissue_invalidates_old_token sampleUser "first" "second" 0 10 20 30
    (by decide) (by decide) (by decide)).2.1

/-! ## Reachability through the core's operations -/

/-- A freshly provisioned account (the column defaults of the model:
counter 0, every optional field null). -/
def initUser (h : BcryptHash) (active : Bool) : User :=
  { password_hash := h, is_active := active, last_login := none,
    password_reset_token := none, password_reset_expires := none,
    failed_login_attempts := 0, locked_until := none,
    last_failed_login := none }

/-- One application of a core operation to an account's state. -/
inductive Step : User → User → Prop
  | set_password (u : User) (pw : String) (salt : Nat) :
      Step u (u.set_password pw salt)
  | update_last_login (u : User) (now : Nat) :
      Step u (u.update_last_login now)
  | generate (u : User) (tok : String) (now : Nat) :
      Step u (u.generate_password_reset_token tok now)
  | verify (u : User) (tok : String) (now : Nat) :
      Step u (u.verify_password_reset_token tok now).2
  | clear (u : User) : Step u u.clear_password_reset_token
  | reset (u : User) (pw : String) (salt : Nat) :
      Step u (u.reset_password pw salt)
  | failed (u : User) (now : Nat) : Step u (u.handle_failed_login now)
  | succeeded (u : User) (now : Nat) : Step u (u.handle_successful_login now)
  | unlock (u : User) : Step u u.unlock_account
  | login_attempt (u v : User) (pw : String) (now : Nat)
      (h : (login (some u) pw now).2 = some v) : Step u v

/-- Account states reachable through sequences of core operations. -/
abbrev Reachable (u v : User) : Prop := Relation.ReflTransGen Step u v

lemma verify_state_cases (u : User) (tok : String) (now : Nat) :
    (u.verify_password_reset_token tok now).2 = u ∨
    (u.verify_password_reset_token tok now).2
      = u.clear_password_reset_token := by
  unfold User.verify_password_reset_token
  rcases u.password_reset_token with _ | stored <;>
    rcases u.password_reset_expires with _ | expires
  · exact Or.inl rfl
  · exact Or.inl rfl
  · exact Or.inl rfl
  · dsimp only
    split_ifs <;> simp

lemma login_state_cases (u : User) (pw : String) (now : Nat) :
    (login (some u) pw now).2 = some u
    ∨ (login (some u) pw now).2 = some (u.handle_failed_login now)
    ∨ (login (some u) pw now).2 = some (u.handle_successful_login now) := by
  simp only [login]
  split_ifs <;> simp

lemma handle_failed_login_reset_token (u : User) (now : Nat) :
    (u.handle_failed_login now).password_reset_token
      = u.password_reset_token := by
  unfold User.handle_failed_login
  dsimp only
  split <;> rfl

lemma handle_failed_login_reset_expires (u : User) (now : Nat) :
    (u.handle_failed_login now).password_reset_expires
      = u.password_reset_expires := by
  unfold User.handle_failed_login
  dsimp only
  split <;> rfl

lemma handle_failed_login_last_failed (u : User) (now : Nat) :
    (u.handle_failed_login now).last_failed_login = some now := by
  unfold User.handle_failed_login
  dsimp only
  split <;> rfl

/-- The C8 invariant: the reset token and its expiry are null together. -/
def resetFieldsSync (u : User) : Prop :=
  u.password_reset_token = none ↔ u.password_reset_expires = none

lemma step_resetFieldsSync {u v : User} (hs : Step u v)
    (h : resetFieldsSync u) : resetFieldsSync v := by
  unfold resetFieldsSync at h ⊢
  cases hs with
  | set_password pw salt => exact h
  | update_last_login now => exact h
  | generate tok now => simp [User.generate_password_reset_token]
  | verify tok now =>
      rcases verify_state_cases u tok now with hv | hv <;> rw [hv]
      · exact h
      · simp [User.clear_password_reset_token]
  | clear => simp [User.clear_password_reset_token]
  | reset pw salt =>
      simp [User.reset_password, User.clear_password_reset_token,
        User.set_password]
  | failed now =>
      rw [handle_failed_login_reset_token, handle_failed_login_reset_expires]
      exact h
  | succeeded now => exact h
  | unlock => exact h
  | login_attempt v pw now hl =>
      rcases login_state_cases u pw now with h1 | h1 | h1 <;> rw [hl] at h1
      · obtain rfl := Option.some.inj h1
        exact h
      · obtain rfl := Option.some.inj h1
        rw [handle_failed_login_reset_token,
          handle_failed_login_reset_expires]
        exact h
      · obtain rfl := Option.some.inj h1
        exact h

/-- C8 -- Token/expiry synchrony: in every account state reachable from a
fresh account through the core's operations (password set, issue, verify,
clear, consume, login, failure/success handling, unlock),
`password_reset_token` is null iff `password_reset_expires` is null. -/
theorem reset_fields_sync_invariant (h : BcryptHash) (active : Bool)
    (v : User) (hr : Reachable (initUser h active) v) :
    resetFieldsSync v := by
  induction hr with
  | refl => simp [resetFieldsSync, initUser]
  | tail hab hbc ih => exact step_resetFieldsSync hbc ih

/-- Witness for C8: the state reached by issuing a token on a fresh account
satisfies the synchrony invariant. -/
theorem reset_fields_sync_invariant_witness :
    resetFieldsSync ((initUser (bcrypt_hashpw "Secret123!" 7)
        true).generate_password_reset_token "tok1" 0) :=
  reset_fields_sync_invariant (bcrypt_hashpw "Secret123!" 7) true _
    (Relation.ReflTransGen.single
      (Step.generate (initUser (bcrypt_hashpw "Secret123!" 7) true) "tok1" 0))

/-- An account is mid-lockout-countdown when it carries a recorded
failed-login timestamp that no success, unlock, or completed reset has
cleared yet. -/
def midLockoutCountdown (u : User) : Prop :=
  u.last_failed_login ≠ none

/-- The C9 invariant: zero failure counter whenever no lock is set and the
account is not mid-lockout-countdown. -/
def lockCounterZero (u : User) : Prop :=
  u.locked_until = none ∧ ¬ midLockoutCountdown u →
    u.failed_login_attempts = 0

lemma step_lockCounterZero {u v : User} (hs : Step u v)
    (h : lockCounterZero u) : lockCounterZero v := by
  unfold lockCounterZero midLockoutCountdown at h ⊢
  cases hs with
  | set_password pw salt => exact h
  | update_last_login now => exact h
  | generate tok now => exact h
  | verify tok now =>
      rcases verify_state_cases u tok now with hv | hv <;> rw [hv] <;> exact h
  | clear => exact h
  | reset pw salt =>
      intro
      rfl
  | failed now =>
      intro hcon
      exfalso
      apply hcon.2
      rw [handle_failed_login_last_failed]
      simp
  | succeeded now =>
      intro
      rfl
  | unlock =>
      intro
      rfl
  | login_attempt v pw now hl =>
      rcases login_state_cases u pw now with h1 | h1 | h1 <;> rw [hl] at h1
      · obtain rfl := Option.some.inj h1
        exact h
      · obtain rfl := Option.some.inj h1
        intro hcon
        exfalso
        apply hcon.2
        rw [handle_failed_login_last_failed]
        simp
      · obtain rfl := Option.some.inj h1
        intro
        rfl

/-- C9 -- Zero-counter invariant: in every account state reachable from a
fresh account through the core's operations, `failed_login_attempts = 0`
whenever `locked_until` is null and the account is not mid-lockout-countdown
(interpreted as: it carries no recorded failed-login timestamp). -/
theorem lock_counter_zero_invariant (h : BcryptHash) (active : Bool)
    (v : User) (hr : Reachable (initUser h active) v) :
    lockCounterZero v := by
  induction hr with
  | refl =>
      intro
      rfl
  | tail hab hbc ih => exact step_lockCounterZero hbc ih

/-- Witness for C9: the state reached by one recorded failure on a fresh
account satisfies the zero-counter invariant. -/
theorem lock_counter_zero_invariant_witness :
    lockCounterZero ((initUser (bcrypt_hashpw "Secret123!" 7)
        true).handle_failed_login 5) :=
  lock_counter_zero_invariant (bcrypt_hashpw "Secret123!" 7) true _
    (Relation.ReflTransGen.single
      (Step.failed (initUser (bcrypt_hashpw "Secret123!" 7) true) 5))

end MRC
